import Mathlib

/-
  Shallow embedding of the WordPress REST API client of
  src/web/remix-app/app/lib/wordpress-api.ts (class WordPressApiClient).

  Modelling conventions:
  * The network is an oracle `Nat → FetchOutcome α`: the outcome of the
    i-th fetch performed by the operation under scrutiny.  `FetchOutcome.netFail`
    models every throwable coming out of `fetch` or out of parsing the body on
    the ok path (network error, abort/timeout, JSON parse error) — that is,
    every failure that is not a `WordPressApiError` built from a non-ok
    response.  `FetchOutcome.resp` carries the HTTP status, statusText, the
    `message`/`code` fields a non-ok body would parse to, the parsed body for
    the ok path, and the response headers.
  * The private mutable cache `Map<string, \x7bdata, timestamp, ttl\x7d>` is an
    association list threaded explicitly; `Date.now()` is an explicit `now`
    argument (Nat milliseconds; the clock is assumed monotone, so the JS
    subtraction `Date.now() - timestamp` is Nat subtraction).
  * `RequestResult` records, besides the returned value (`Except` for
    throw/return), the final cache, how many network calls were made, how many
    `AbortController`s were created and timeout timers armed, and the list of
    backoff delays awaited (in milliseconds), so that call-counting and
    timing-structure statements can be made.
  * JS numbers that the code only ever treats as integers are `Int`
    (so that negative inputs are representable); `parseInt` is modelled as
    `Option Int`, `none` standing for `NaN`.
-/

/-- The `\x7brendered: string\x7d` wrapper used by WordPress for title, content
and excerpt. -/
structure Rendered where
  rendered : String
deriving DecidableEq, Repr

/-- WordPressPost (lib/wordpress.ts); `_links` and the optional
`author_name` are irrelevant to control flow and elided. -/
structure WordPressPost where
  id : Nat
  title : Rendered
  content : Rendered
  excerpt : Rendered
  slug : String
  date : String
  modified : String
  author : Nat
  featured_media : Nat
  status : String
deriving DecidableEq, Repr

/-- WordPressPage (lib/wordpress.ts). -/
structure WordPressPage where
  id : Nat
  title : Rendered
  content : Rendered
  excerpt : Rendered
  slug : String
  date : String
  modified : String
  parent : Nat
  status : String
deriving DecidableEq, Repr

/-- WordPressCategory (wordpress-api.ts). -/
structure WordPressCategory where
  id : Nat
  count : Nat
  description : String
  link : String
  name : String
  slug : String
  taxonomy : String
  parent : Nat
deriving DecidableEq, Repr

/-- WordPressConfig: constructor defaults are timeout 10000, cache true,
retries 3 (wordpress-api.ts lines 122-129). -/
structure WordPressConfig where
  baseUrl : String
  timeout : Nat
  cache : Bool
  retries : Nat
deriving DecidableEq, Repr

/-- Errors that escape a client operation.  `api` is `WordPressApiError`
(message, optional HTTP status, optional backend code); `raw` is any other
thrown value (network failure, abort, parse error), which the code rethrows
without normalising. -/
inductive WPError where
  | api (message : String) (status : Option Nat) (code : Option String)
  | raw (message : String)
deriving DecidableEq, Repr

/-- An HTTP response as observed by the client: status, statusText, the
`message` and `code` fields that `response.json()` would yield on the
error path, the parsed body for the ok path, and the headers. -/
structure HttpResponse (α : Type) where
  status : Nat
  statusText : String
  errMessage : Option String
  errCode : Option String
  body : α
  headers : List (String × String)
deriving DecidableEq, Repr

/-- Outcome of one `fetch` call: either a throw from fetch/body-parsing
(network error, abort, invalid JSON) or a response. -/
inductive FetchOutcome (α : Type) where
  | netFail (msg : String)
  | resp (r : HttpResponse α)
deriving DecidableEq, Repr

/-- `response.ok`: status in the range 200-299. -/
def respOk (status : Nat) : Prop := 200 ≤ status ∧ status ≤ 299

instance (status : Nat) : Decidable (respOk status) :=
  inferInstanceAs (Decidable (200 ≤ status ∧ status ≤ 299))

/-- One cache entry: `\x7bdata, timestamp, ttl\x7d`. -/
structure CacheEntry (α : Type) where
  data : α
  timestamp : Nat
  ttl : Nat
deriving DecidableEq, Repr

/-- The private `cache : Map<string, CacheEntry>` as an association list in
insertion order. -/
abbrev Cache (α : Type) := List (String × CacheEntry α)

/-- `Map.get`. -/
def cacheGet (c : Cache α) (k : String) : Option (CacheEntry α) :=
  (c.find? (fun p => p.1 == k)).map Prod.snd

/-- `Map.set`: replace in place when the key exists, append otherwise. -/
def cacheSet (c : Cache α) (k : String) (e : CacheEntry α) : Cache α :=
  if c.any (fun p => p.1 == k) then
    c.map (fun p => if p.1 == k then (k, e) else p)
  else c ++ [(k, e)]

/-- `Map.clear`, as used by `clearCache()`. -/
def cacheClear (_ : Cache α) : Cache α := []

/-- `JSON.stringify(options)` for the options objects the code ever passes to
`request` (only a possible `method` field; all call sites pass `\x7b\x7d`). -/
def optionsStr : Option String → String
  | none => "\x7b\x7d"
  | some m => "\x7b\x22method\x22:\x22" ++ m ++ "\x22\x7d"

/-- The resolved URL of `request` (line 139). -/
def requestUrl (cfg : WordPressConfig) (endpoint : String) : String :=
  cfg.baseUrl ++ "/wp-json/wp/v2" ++ endpoint

/-- The cache key of `request` (line 140). -/
def requestKey (cfg : WordPressConfig) (endpoint : String) (method : Option String) : String :=
  requestUrl cfg endpoint ++ ":" ++ optionsStr method

/-- The cache consultation of `request` (lines 143-148): only when caching is
configured and the method is not POST, and only while
`Date.now() - timestamp < ttl`. -/
def cacheLookup (cfg : WordPressConfig) (method : Option String) (cache : Cache α)
    (key : String) (now : Nat) : Option α :=
  if cfg.cache && !(method == some "POST") then
    match cacheGet cache key with
    | some e => if now - e.timestamp < e.ttl then some e.data else none
    | none => none
  else none

/-- Result of the retry loop of `request` (lines 156-207): the value returned
or error thrown, the cache after the loop, how many fetches were issued, and
the backoff delays awaited in milliseconds. -/
structure AttemptsResult (α : Type) where
  result : Except WPError α
  cache : Cache α
  calls : Nat
  delays : List Nat
deriving Repr

/-- The `WordPressApiError` built from a non-ok response (lines 171-176). -/
def respError (r : HttpResponse α) : WPError :=
  WPError.api (r.errMessage.getD ("HTTP " ++ toString r.status ++ ": " ++ r.statusText))
    (some r.status) r.errCode

/-- The retry loop of `request` (lines 156-207).  `remaining` is
`retries - attempt`; `calls` counts fetches already made, and doubles as the
attempt index (the loop starts with `calls = 0`).  On a 2xx response the body
is returned and cached (when caching applies); a non-ok response raises
`respError`, which is terminal when `status` is truthy and `< 500`, and
retryable otherwise; any other throw (network, abort, parse) is retryable.
Before every retry except after the last attempt the code awaits
`2 ^ attempt * 1000` milliseconds. -/
def requestAttempts (cfg : WordPressConfig) (cacheKey : String) (method : Option String)
    (cacheTtl : Nat) (now : Nat) (oracle : Nat → FetchOutcome α) :
    Nat → Nat → Option WPError → Cache α → AttemptsResult α
  | 0, calls, lastError, cache =>
    ⟨Except.error (lastError.getD (WPError.api "Request failed after retries" none none)),
      cache, calls, []⟩
  | remaining + 1, calls, lastError, cache =>
    match oracle calls with
    | FetchOutcome.netFail msg =>
      let next := requestAttempts cfg cacheKey method cacheTtl now oracle
        remaining (calls + 1) (some (WPError.raw msg)) cache
      { next with delays := (if remaining ≠ 0 then [2 ^ calls * 1000] else []) ++ next.delays }
    | FetchOutcome.resp r =>
      if respOk r.status then
        let cache' := if cfg.cache && !(method == some "POST") then
            cacheSet cache cacheKey ⟨r.body, now, cacheTtl⟩
          else cache
        ⟨Except.ok r.body, cache', calls + 1, []⟩
      else if r.status ≠ 0 ∧ r.status < 500 then
        ⟨Except.error (respError r), cache, calls + 1, []⟩
      else
        let next := requestAttempts cfg cacheKey method cacheTtl now oracle
          remaining (calls + 1) (some (respError r)) cache
        { next with delays := (if remaining ≠ 0 then [2 ^ calls * 1000] else []) ++ next.delays }

/-- Full result of one `request` invocation. -/
structure RequestResult (α : Type) where
  result : Except WPError α
  cache : Cache α
  netCalls : Nat
  controllersCreated : Nat
  timersArmed : Nat
  delays : List Nat
deriving Repr

/-- The default `cacheTtl` argument of `request`: 5 minutes. -/
def defaultCacheTtl : Nat := 5 * 60 * 1000

/-- `request` (lines 134-208): consult the cache first; on a miss create one
`AbortController`, arm one timeout timer (lines 150-151 — once, before the
retry loop), and run the retry loop. -/
def request (cfg : WordPressConfig) (endpoint : String) (method : Option String)
    (cacheTtl : Nat) (now : Nat) (cache : Cache α) (oracle : Nat → FetchOutcome α) :
    RequestResult α :=
  match cacheLookup cfg method cache (requestKey cfg endpoint method) now with
  | some d => ⟨Except.ok d, cache, 0, 0, 0, []⟩
  | none =>
    let a := requestAttempts cfg (requestKey cfg endpoint method) method cacheTtl now oracle
      cfg.retries 0 none cache
    ⟨a.result, a.cache, a.calls, 1, 1, a.delays⟩

example :
    (request ⟨"http://wp", 10000, true, 3⟩ "/x" none defaultCacheTtl 0 []
      (fun _ => (FetchOutcome.netFail "boom" : FetchOutcome Nat))).netCalls = 3 := by decide

example :
    (request ⟨"http://wp", 10000, true, 3⟩ "/x" none defaultCacheTtl 0 []
      (fun _ => FetchOutcome.resp ⟨404, "Not Found", none, none, (0 : Nat), []⟩)).netCalls
      = 1 := by decide

/-- JS truthiness of an optional number field, as tested by `if (params.x)`:
false for an absent field and for 0. -/
def truthyNum : Option Int → Bool
  | none => false
  | some n => n != 0

/-- JS truthiness of an optional string field: false for an absent field and
for the empty string. -/
def truthyStr : Option String → Bool
  | none => false
  | some s => s != ""

/-- `params.x || d` for an optional JS number. -/
def jsOr (o : Option Int) (d : Int) : Int :=
  match o with
  | some n => if n = 0 then d else n
  | none => d

/-- `if (params.x) searchParams.append(k, params.x.toString())` for a number
field, as an ordered parameter list. -/
def numParam (k : String) : Option Int → List (String × String)
  | some n => if n = 0 then [] else [(k, toString n)]
  | none => []

/-- `if (params.x) searchParams.append(k, params.x)` for a string field. -/
def strParam (k : String) : Option String → List (String × String)
  | some s => if s = "" then [] else [(k, s)]
  | none => []

/-- `if (params.x !== undefined) searchParams.append(k, params.x.toString())`
for a number field (presence check, no truthiness). -/
def presentNumParam (k : String) : Option Int → List (String × String)
  | some n => [(k, toString n)]
  | none => []

/-- `if (params.x !== undefined) searchParams.append(k, params.x.toString())`
for a boolean field. -/
def presentBoolParam (k : String) : Option Bool → List (String × String)
  | some b => [(k, if b then "true" else "false")]
  | none => []

/-- The numeric value of a run of decimal digits. -/
def digitsVal (ds : List Char) : Nat :=
  ds.foldl (fun acc c => acc * 10 + (c.toNat - 48)) 0

/-- `parseInt` in base 10: skip leading whitespace, optional sign, then the
leading digit run; `none` models `NaN` (no digits).  Trailing characters are
ignored, as `parseInt` ignores them. -/
def jsParseInt (s : String) : Option Int :=
  match s.toList.dropWhile (fun c => c = ' ' || c = '\t' || c = '\n' || c = '\r') with
  | '-' :: rest =>
    let ds := rest.takeWhile Char.isDigit
    if ds.isEmpty then none else some (-(digitsVal ds : Int))
  | '+' :: rest =>
    let ds := rest.takeWhile Char.isDigit
    if ds.isEmpty then none else some ((digitsVal ds : Nat) : Int)
  | cs =>
    let ds := cs.takeWhile Char.isDigit
    if ds.isEmpty then none else some ((digitsVal ds : Nat) : Int)

/-- `response.headers.get(k)`. -/
def headerGet (headers : List (String × String)) (k : String) : Option String :=
  (headers.find? (fun h => h.1 == k)).map Prod.snd

/-- WordPressApiResponse: the paginated result shape.  `total` and
`totalPages` are `Option Int` because `parseInt` of a malformed header is
`NaN` (modelled `none`). -/
structure WordPressApiResponse (T : Type) where
  data : List T
  total : Option Int
  totalPages : Option Int
  page : Int
  perPage : Int
deriving DecidableEq, Repr

/-- The filter accepted by `getPosts` (lines 213-222); every field optional. -/
structure GetPostsParams where
  page : Option Int
  perPage : Option Int
  categories : Option String
  tags : Option String
  search : Option String
  orderby : Option String
  order : Option String
  status : Option String
deriving DecidableEq, Repr

/-- The empty filter `\x7b\x7d`. -/
def GetPostsParams.empty : GetPostsParams :=
  ⟨none, none, none, none, none, none, none, none⟩

/-- The `_embed` value always appended by `getPosts` (line 235). -/
def postsEmbed : String := "author,wp:featuredmedia,wp:term"

/-- The query built by `getPosts` (lines 223-237), as the ordered list of
appended (key, value) pairs of the `URLSearchParams` (URL percent-encoding of
the final `toString` is orthogonal and not modelled). -/
def buildPostsQuery (p : GetPostsParams) : List (String × String) :=
  numParam "page" p.page ++ numParam "per_page" p.perPage ++
  strParam "categories" p.categories ++ strParam "tags" p.tags ++
  strParam "search" p.search ++ strParam "orderby" p.orderby ++
  strParam "order" p.order ++ strParam "status" p.status ++
  [("_embed", postsEmbed)]

/-- `getPosts` (lines 213-267).  It calls `fetch` directly — not
`this.request` — so it takes no cache and returns no cache: it never consults
nor updates the client cache and has no retry loop.  The second component is
the number of network calls performed (always 1). -/
def getPosts (cfg : WordPressConfig) (params : GetPostsParams)
    (outcome : FetchOutcome (List WordPressPost)) :
    Except WPError (WordPressApiResponse WordPressPost) × Nat :=
  match outcome with
  | FetchOutcome.netFail msg => (Except.error (WPError.raw msg), 1)
  | FetchOutcome.resp r =>
    if respOk r.status then
      (Except.ok
        { data := r.body
          total := jsParseInt ((headerGet r.headers "X-WP-Total").getD "0")
          totalPages := jsParseInt ((headerGet r.headers "X-WP-TotalPages").getD "0")
          page := jsOr params.page 1
          perPage := jsOr params.perPage 10 }, 1)
    else
      (Except.error (WPError.api ("Failed to fetch posts: " ++ r.statusText)
        (some r.status) none), 1)

/-- The body `request` parses for `getPost`/`getPage`: the slug route returns
a collection, the id route a single object. -/
inductive PostsBody where
  | single (p : WordPressPost)
  | arr (ps : List WordPressPost)
deriving DecidableEq, Repr

/-- The endpoint chosen by `getPost` (lines 273-275): id → direct resource
path, slug → collection query. -/
def getPostEndpoint : Nat ⊕ String → String
  | Sum.inl i => "/posts/" ++ toString i ++ "?_embed=author,wp:featuredmedia,wp:term"
  | Sum.inr slug => "/posts?slug=" ++ slug ++ "&_embed=author,wp:featuredmedia,wp:term"

/-- Result of an operation routed through `request`. -/
structure OpResult (α β : Type) where
  result : Except WPError β
  cache : Cache α
  netCalls : Nat
deriving Repr

/-- `getPost` (lines 272-287): call `request`; an empty collection is a typed
404, a non-empty collection yields its first element, a single object is
returned as is. -/
def getPost (cfg : WordPressConfig) (identifier : Nat ⊕ String) (now : Nat)
    (cache : Cache PostsBody) (oracle : Nat → FetchOutcome PostsBody) :
    OpResult PostsBody WordPressPost :=
  let r := request cfg (getPostEndpoint identifier) none defaultCacheTtl now cache oracle
  match r.result with
  | Except.error e => ⟨Except.error e, r.cache, r.netCalls⟩
  | Except.ok (PostsBody.arr []) =>
    ⟨Except.error (WPError.api "Post not found" (some 404) none), r.cache, r.netCalls⟩
  | Except.ok (PostsBody.arr (p :: _)) => ⟨Except.ok p, r.cache, r.netCalls⟩
  | Except.ok (PostsBody.single p) => ⟨Except.ok p, r.cache, r.netCalls⟩

/-- The body `request` parses for `getPage`. -/
inductive PagesBody where
  | single (p : WordPressPage)
  | arr (ps : List WordPressPage)
deriving DecidableEq, Repr

/-- The endpoint chosen by `getPage` (lines 348-350). -/
def getPageEndpoint : Nat ⊕ String → String
  | Sum.inl i => "/pages/" ++ toString i ++ "?_embed=author,wp:featuredmedia"
  | Sum.inr slug => "/pages?slug=" ++ slug ++ "&_embed=author,wp:featuredmedia"

/-- `getPage` (lines 347-362): same shape as `getPost`. -/
def getPage (cfg : WordPressConfig) (identifier : Nat ⊕ String) (now : Nat)
    (cache : Cache PagesBody) (oracle : Nat → FetchOutcome PagesBody) :
    OpResult PagesBody WordPressPage :=
  let r := request cfg (getPageEndpoint identifier) none defaultCacheTtl now cache oracle
  match r.result with
  | Except.error e => ⟨Except.error e, r.cache, r.netCalls⟩
  | Except.ok (PagesBody.arr []) =>
    ⟨Except.error (WPError.api "Page not found" (some 404) none), r.cache, r.netCalls⟩
  | Except.ok (PagesBody.arr (p :: _)) => ⟨Except.ok p, r.cache, r.netCalls⟩
  | Except.ok (PagesBody.single p) => ⟨Except.ok p, r.cache, r.netCalls⟩

/-- The filter accepted by `getPages` (lines 292-300). -/
structure GetPagesParams where
  page : Option Int
  perPage : Option Int
  search : Option String
  parent : Option Int
  orderby : Option String
  order : Option String
  status : Option String
deriving DecidableEq, Repr

/-- The query built by `getPages` (lines 301-312): note `parent` is gated by
a `!== undefined` check (so `parent: 0` is appended), and the `_embed` value
has no `wp:term`. -/
def buildPagesQuery (p : GetPagesParams) : List (String × String) :=
  numParam "page" p.page ++ numParam "per_page" p.perPage ++
  strParam "search" p.search ++ presentNumParam "parent" p.parent ++
  strParam "orderby" p.orderby ++ strParam "order" p.order ++
  strParam "status" p.status ++
  [("_embed", "author,wp:featuredmedia")]

/-- `getPages` (lines 292-342): direct `fetch`, same response handling as
`getPosts`. -/
def getPages (cfg : WordPressConfig) (params : GetPagesParams)
    (outcome : FetchOutcome (List WordPressPage)) :
    Except WPError (WordPressApiResponse WordPressPage) × Nat :=
  match outcome with
  | FetchOutcome.netFail msg => (Except.error (WPError.raw msg), 1)
  | FetchOutcome.resp r =>
    if respOk r.status then
      (Except.ok
        { data := r.body
          total := jsParseInt ((headerGet r.headers "X-WP-Total").getD "0")
          totalPages := jsParseInt ((headerGet r.headers "X-WP-TotalPages").getD "0")
          page := jsOr params.page 1
          perPage := jsOr params.perPage 10 }, 1)
    else
      (Except.error (WPError.api ("Failed to fetch pages: " ++ r.statusText)
        (some r.status) none), 1)

/-- The filter accepted by `getCategories` (lines 367-374). -/
structure GetCategoriesParams where
  page : Option Int
  perPage : Option Int
  search : Option String
  orderby : Option String
  order : Option String
  hide_empty : Option Bool
deriving DecidableEq, Repr

/-- The query built by `getCategories` (lines 375-385): no `_embed`;
`hide_empty` is gated by a `!== undefined` check. -/
def buildCategoriesQuery (p : GetCategoriesParams) : List (String × String) :=
  numParam "page" p.page ++ numParam "per_page" p.perPage ++
  strParam "search" p.search ++ strParam "orderby" p.orderby ++
  strParam "order" p.order ++ presentBoolParam "hide_empty" p.hide_empty

/-- `getCategories` (lines 367-413): direct `fetch`, same response handling
as `getPosts`. -/
def getCategories (cfg : WordPressConfig) (params : GetCategoriesParams)
    (outcome : FetchOutcome (List WordPressCategory)) :
    Except WPError (WordPressApiResponse WordPressCategory) × Nat :=
  match outcome with
  | FetchOutcome.netFail msg => (Except.error (WPError.raw msg), 1)
  | FetchOutcome.resp r =>
    if respOk r.status then
      (Except.ok
        { data := r.body
          total := jsParseInt ((headerGet r.headers "X-WP-Total").getD "0")
          totalPages := jsParseInt ((headerGet r.headers "X-WP-TotalPages").getD "0")
          page := jsOr params.page 1
          perPage := jsOr params.perPage 10 }, 1)
    else
      (Except.error (WPError.api ("Failed to fetch categories: " ++ r.statusText)
        (some r.status) none), 1)

/-- The `type` option of `search` (line 419). -/
inductive SearchType where
  | post
  | page
  | any
deriving DecidableEq, Repr

/-- The endpoint chosen by `search` (line 433): `/pages` for type `page`,
`/posts` otherwise (so `any` queries posts only). -/
def searchEndpoint (t : SearchType) : String :=
  match t with
  | SearchType.page => "/pages"
  | _ => "/posts"

/-- `search` (lines 418-462), generic in the record type of the results:
direct `fetch`, same response handling as `getPosts`.  The first query pair is
always `search=query` (appended unconditionally, line 424). -/
def searchContent {α : Type} (cfg : WordPressConfig) (query : String)
    (t : Option SearchType) (page perPage : Option Int)
    (outcome : FetchOutcome (List α)) :
    Except WPError (WordPressApiResponse α) × Nat :=
  match outcome with
  | FetchOutcome.netFail msg => (Except.error (WPError.raw msg), 1)
  | FetchOutcome.resp r =>
    if respOk r.status then
      (Except.ok
        { data := r.body
          total := jsParseInt ((headerGet r.headers "X-WP-Total").getD "0")
          totalPages := jsParseInt ((headerGet r.headers "X-WP-TotalPages").getD "0")
          page := jsOr page 1
          perPage := jsOr perPage 10 }, 1)
    else
      (Except.error (WPError.api ("Search failed: " ++ r.statusText)
        (some r.status) none), 1)

/-- The query built by `search` (lines 423-427). -/
def buildSearchQuery (query : String) (page perPage : Option Int) :
    List (String × String) :=
  [("search", query)] ++ numParam "page" page ++ numParam "per_page" perPage

/-- HealthStatus state. -/
inductive HealthState where
  | healthy
  | unhealthy
deriving DecidableEq, Repr

/-- The value returned by `healthCheck`. -/
structure HealthStatus where
  status : HealthState
  message : String
deriving DecidableEq, Repr

/-- The fixed timeout `healthCheck` passes to `AbortSignal.timeout`
(line 478). -/
def healthCheckTimeoutMs : Nat := 5000

/-- `healthCheck` (lines 474-495): one `fetch` inside a try/catch, no loop;
every outcome — ok, non-ok, or thrown — is mapped to a returned
`HealthStatus`, never to a thrown error.  The second component is the number
of network calls (always 1). -/
def healthCheck (cfg : WordPressConfig) (outcome : FetchOutcome Unit) :
    HealthStatus × Nat :=
  match outcome with
  | FetchOutcome.resp r =>
    if respOk r.status then
      (⟨HealthState.healthy, "WordPress API is accessible"⟩, 1)
    else
      (⟨HealthState.unhealthy,
        "WordPress API returned " ++ toString r.status ++ ": " ++ r.statusText⟩, 1)
  | FetchOutcome.netFail msg =>
    (⟨HealthState.unhealthy, "WordPress API is not accessible: " ++ msg⟩, 1)


/-- The error a failed attempt records in `lastError`: the normalised
`WordPressApiError` for a non-ok response, the raw thrown value otherwise. -/
def outcomeErr : FetchOutcome α → WPError
  | FetchOutcome.netFail msg => WPError.raw msg
  | FetchOutcome.resp r => respError r

/-- An attempt outcome the retry loop retries: any throw from fetch, or a
non-ok response whose status is not (truthy and below 500). -/
def retryableOutcome : FetchOutcome α → Prop
  | FetchOutcome.netFail _ => True
  | FetchOutcome.resp r => ¬ respOk r.status ∧ ¬ (r.status ≠ 0 ∧ r.status < 500)

instance (o : FetchOutcome α) : Decidable (retryableOutcome o) := by
  cases o with
  | netFail msg => exact isTrue trivial
  | resp r => unfold retryableOutcome; infer_instance

/-- An attempt outcome that is not a success: any throw, or a non-ok
response. -/
def failingOutcome : FetchOutcome α → Prop
  | FetchOutcome.netFail _ => True
  | FetchOutcome.resp r => ¬ respOk r.status

instance (o : FetchOutcome α) : Decidable (failingOutcome o) := by
  cases o with
  | netFail msg => exact isTrue trivial
  | resp r => unfold failingOutcome; infer_instance

/-- The exponential backoff delays (milliseconds) awaited by `k` consecutive
failed attempts starting at attempt index `c`. -/
def backoffDelays : Nat → Nat → List Nat
  | _, 0 => []
  | c, k + 1 => 2 ^ c * 1000 :: backoffDelays (c + 1) k

theorem backoffDelays_eq_range (k : Nat) : ∀ c : Nat,
    backoffDelays c k = (List.range k).map (fun j => 2 ^ (c + j) * 1000) := by
  induction k with
  | zero => intro c; rfl
  | succ k ih =>
    intro c
    rw [List.range_succ_eq_map, List.map_cons, List.map_map]
    show backoffDelays c (k + 1) = _
    rw [backoffDelays, ih (c + 1)]
    refine congrArg₂ _ (by rw [Nat.add_zero]) ?_
    apply List.map_congr_left
    intro a _
    show 2 ^ (c + 1 + a) * 1000 = 2 ^ (c + Nat.succ a) * 1000
    congr 1
    congr 1
    omega

theorem cacheGet_nil (k : String) : cacheGet ([] : Cache α) k = none := rfl

theorem find_replace (c : Cache α) (k : String) (e : CacheEntry α)
    (h : c.any (fun p => p.1 == k) = true) :
    (c.map (fun p => if p.1 == k then (k, e) else p)).find? (fun p => p.1 == k)
      = some (k, e) := by
  induction c with
  | nil => simp at h
  | cons p rest ih =>
    by_cases hp : (p.1 == k) = true
    · rw [List.map_cons, if_pos hp, List.find?_cons_of_pos]
      exact beq_self_eq_true k
    · have hr : rest.any (fun q => q.1 == k) = true := by
        simpa [List.any_cons, hp] using h
      rw [List.map_cons, if_neg hp, List.find?_cons_of_neg]
      · exact ih hr
      · simpa using hp

theorem find_append_new (c : Cache α) (k : String) (e : CacheEntry α)
    (h : c.any (fun p => p.1 == k) = false) :
    (c ++ [(k, e)]).find? (fun p => p.1 == k) = some (k, e) := by
  induction c with
  | nil =>
    rw [List.nil_append, List.find?_cons_of_pos]
    exact beq_self_eq_true k
  | cons p rest ih =>
    have h' := h
    simp only [List.any_cons, Bool.or_eq_false_iff] at h'
    rw [List.cons_append, List.find?_cons_of_neg]
    · exact ih h'.2
    · simp [h'.1]

theorem cacheGet_cacheSet (c : Cache α) (k : String) (e : CacheEntry α) :
    cacheGet (cacheSet c k e) k = some e := by
  unfold cacheGet cacheSet
  by_cases h : c.any (fun p => p.1 == k) = true
  · rw [if_pos h, find_replace c k e h]; rfl
  · rw [if_neg h, find_append_new c k e (Bool.eq_false_iff.mpr h)]; rfl

theorem cacheLookup_nil (cfg : WordPressConfig) (meth : Option String)
    (k : String) (now : Nat) :
    cacheLookup cfg meth ([] : Cache α) k now = none := by
  unfold cacheLookup
  by_cases hb : (cfg.cache && !(meth == some "POST")) = true <;>
    simp [hb, cacheGet_nil]

theorem cacheLookup_stale (cfg : WordPressConfig) (meth : Option String)
    (cache : Cache α) (k : String) (now : Nat) (e : CacheEntry α)
    (h1 : cacheGet cache k = some e) (h2 : ¬ (now - e.timestamp < e.ttl)) :
    cacheLookup cfg meth cache k now = none := by
  unfold cacheLookup
  by_cases hb : (cfg.cache && !(meth == some "POST")) = true <;>
    simp [hb, h1, h2]

theorem cacheLookup_fresh (cfg : WordPressConfig) (meth : Option String)
    (cache : Cache α) (k : String) (now : Nat) (e : CacheEntry α)
    (hb : (cfg.cache && !(meth == some "POST")) = true)
    (h1 : cacheGet cache k = some e) (h2 : now - e.timestamp < e.ttl) :
    cacheLookup cfg meth cache k now = some e.data := by
  unfold cacheLookup
  simp [hb, h1, h2]

theorem request_of_miss (cfg : WordPressConfig) (endpoint : String)
    (meth : Option String) (cacheTtl now : Nat) (cache : Cache α)
    (oracle : Nat → FetchOutcome α)
    (h : cacheLookup cfg meth cache (requestKey cfg endpoint meth) now = none) :
    request cfg endpoint meth cacheTtl now cache oracle =
      ⟨(requestAttempts cfg (requestKey cfg endpoint meth) meth cacheTtl now oracle
          cfg.retries 0 none cache).result,
       (requestAttempts cfg (requestKey cfg endpoint meth) meth cacheTtl now oracle
          cfg.retries 0 none cache).cache,
       (requestAttempts cfg (requestKey cfg endpoint meth) meth cacheTtl now oracle
          cfg.retries 0 none cache).calls, 1, 1,
       (requestAttempts cfg (requestKey cfg endpoint meth) meth cacheTtl now oracle
          cfg.retries 0 none cache).delays⟩ := by
  unfold request
  rw [h]

theorem request_of_hit (cfg : WordPressConfig) (endpoint : String)
    (meth : Option String) (cacheTtl now : Nat) (cache : Cache α)
    (oracle : Nat → FetchOutcome α) (d : α)
    (h : cacheLookup cfg meth cache (requestKey cfg endpoint meth) now = some d) :
    request cfg endpoint meth cacheTtl now cache oracle =
      ⟨Except.ok d, cache, 0, 0, 0, []⟩ := by
  unfold request
  rw [h]

theorem requestAttempts_first_ok (cfg : WordPressConfig) (key : String)
    (meth : Option String) (cacheTtl now : Nat) (oracle : Nat → FetchOutcome α)
    (k c : Nat) (lastErr : Option WPError) (cache : Cache α) (r : HttpResponse α)
    (hc : oracle c = FetchOutcome.resp r) (hok : respOk r.status) :
    requestAttempts cfg key meth cacheTtl now oracle (k + 1) c lastErr cache =
      ⟨Except.ok r.body,
       (if cfg.cache && !(meth == some "POST") then
          cacheSet cache key ⟨r.body, now, cacheTtl⟩ else cache),
       c + 1, []⟩ := by
  rw [requestAttempts, hc]
  simp [hok]

theorem requestAttempts_terminal (cfg : WordPressConfig) (key : String)
    (meth : Option String) (cacheTtl now : Nat) (oracle : Nat → FetchOutcome α)
    (k c : Nat) (lastErr : Option WPError) (cache : Cache α) (r : HttpResponse α)
    (hc : oracle c = FetchOutcome.resp r) (hok : ¬ respOk r.status)
    (hterm : r.status ≠ 0 ∧ r.status < 500) :
    requestAttempts cfg key meth cacheTtl now oracle (k + 1) c lastErr cache =
      ⟨Except.error (respError r), cache, c + 1, []⟩ := by
  rw [requestAttempts, hc]
  simp [hok, hterm]

theorem requestAttempts_step_retryable (cfg : WordPressConfig) (key : String)
    (meth : Option String) (cacheTtl now : Nat) (oracle : Nat → FetchOutcome α)
    (k c : Nat) (lastErr : Option WPError) (cache : Cache α)
    (hre : retryableOutcome (oracle c)) :
    requestAttempts cfg key meth cacheTtl now oracle (k + 1) c lastErr cache =
      { requestAttempts cfg key meth cacheTtl now oracle k (c + 1)
          (some (outcomeErr (oracle c))) cache with
        delays := (if k ≠ 0 then [2 ^ c * 1000] else []) ++
          (requestAttempts cfg key meth cacheTtl now oracle k (c + 1)
            (some (outcomeErr (oracle c))) cache).delays } := by
  cases hc : oracle c with
  | netFail msg =>
    rw [requestAttempts, hc]
    simp [outcomeErr, hc]
  | resp r =>
    rw [hc] at hre
    simp only [retryableOutcome] at hre
    rw [requestAttempts, hc]
    simp [outcomeErr, hc, hre.1, hre.2]

theorem requestAttempts_all_retryable (cfg : WordPressConfig) (key : String)
    (meth : Option String) (cacheTtl now : Nat) (oracle : Nat → FetchOutcome α) :
    ∀ (n c : Nat) (lastErr : Option WPError) (cache : Cache α), 1 ≤ n →
    (∀ i, i < n → retryableOutcome (oracle (c + i))) →
    requestAttempts cfg key meth cacheTtl now oracle n c lastErr cache =
      ⟨Except.error (outcomeErr (oracle (c + n - 1))), cache, c + n,
        backoffDelays c (n - 1)⟩ := by
  intro n
  induction n with
  | zero => intro c lastErr cache h; omega
  | succ k ih =>
    intro c lastErr cache _ hall
    have h0 : retryableOutcome (oracle c) := by
      have := hall 0 (Nat.succ_pos k)
      simpa using this
    rw [requestAttempts_step_retryable cfg key meth cacheTtl now oracle k c lastErr cache h0]
    cases k with
    | zero =>
      rw [requestAttempts]
      simp [backoffDelays]
    | succ j =>
      have hall' : ∀ i, i < j + 1 → retryableOutcome (oracle (c + 1 + i)) := by
        intro i hi
        have := hall (i + 1) (by omega)
        have harith : c + (i + 1) = c + 1 + i := by omega
        rwa [harith] at this
      rw [ih (c + 1) (some (outcomeErr (oracle c))) cache (by omega) hall']
      have h1 : c + 1 + (j + 1) - 1 = c + (j + 1 + 1) - 1 := by omega
      have h2 : c + 1 + (j + 1) = c + (j + 1 + 1) := by omega
      simp only [h1, h2]
      have h3 : j + 1 + 1 - 1 = (j + 1 - 1) + 1 := by omega
      rw [h3, backoffDelays]
      simp

theorem backoffDelays_zero (k : Nat) :
    backoffDelays 0 k = (List.range k).map (fun j => 2 ^ j * 1000) := by
  rw [backoffDelays_eq_range]
  apply List.map_congr_left
  intro a _
  rw [Nat.zero_add]

theorem requestAttempts_error_cache (cfg : WordPressConfig) (key : String)
    (meth : Option String) (ttl now : Nat) (oracle : Nat → FetchOutcome α) :
    ∀ (n c : Nat) (lastErr : Option WPError) (cache : Cache α) (e : WPError),
    (requestAttempts cfg key meth ttl now oracle n c lastErr cache).result = Except.error e →
    (requestAttempts cfg key meth ttl now oracle n c lastErr cache).cache = cache := by
  intro n
  induction n with
  | zero => intro c lastErr cache e _; rfl
  | succ k ih =>
    intro c lastErr cache e he
    by_cases hre : retryableOutcome (oracle c)
    · rw [requestAttempts_step_retryable cfg key meth ttl now oracle k c lastErr cache hre]
        at he ⊢
      exact ih (c + 1) (some (outcomeErr (oracle c))) cache e he
    · cases hc : oracle c with
      | netFail msg =>
        exact absurd (by rw [hc]; simp [retryableOutcome]) hre
      | resp r =>
        by_cases hok : respOk r.status
        · rw [requestAttempts_first_ok cfg key meth ttl now oracle k c lastErr cache r hc hok]
            at he
          simp at he
        · have hterm : r.status ≠ 0 ∧ r.status < 500 := by
            by_contra hterm
            exact hre (by rw [hc]; simp only [retryableOutcome]; exact ⟨hok, hterm⟩)
          rw [requestAttempts_terminal cfg key meth ttl now oracle k c lastErr cache r
            hc hok hterm]

theorem requestAttempts_all_failing (cfg : WordPressConfig) (key : String)
    (meth : Option String) (ttl now : Nat) (oracle : Nat → FetchOutcome α) :
    ∀ (n c : Nat) (lastErr : Option WPError) (cache : Cache α),
    (∀ i, failingOutcome (oracle i)) →
    ∃ e, (requestAttempts cfg key meth ttl now oracle n c lastErr cache).result
      = Except.error e := by
  intro n
  induction n with
  | zero => intro c lastErr cache _; exact ⟨_, rfl⟩
  | succ k ih =>
    intro c lastErr cache hall
    by_cases hre : retryableOutcome (oracle c)
    · rw [requestAttempts_step_retryable cfg key meth ttl now oracle k c lastErr cache hre]
      obtain ⟨e, he⟩ := ih (c + 1) (some (outcomeErr (oracle c))) cache hall
      exact ⟨e, he⟩
    · cases hc : oracle c with
      | netFail msg =>
        exact absurd (by rw [hc]; simp [retryableOutcome]) hre
      | resp r =>
        have hok : ¬ respOk r.status := by
          have hall' := hall c
          rw [hc] at hall'
          simpa [failingOutcome] using hall'
        have hterm : r.status ≠ 0 ∧ r.status < 500 := by
          by_contra hterm
          exact hre (by rw [hc]; simp only [retryableOutcome]; exact ⟨hok, hterm⟩)
        rw [requestAttempts_terminal cfg key meth ttl now oracle k c lastErr cache r
          hc hok hterm]
        exact ⟨respError r, rfl⟩

/-- A sample post fixture. -/
def samplePost (i : Nat) : WordPressPost :=
  ⟨i, ⟨"Title " ++ toString i⟩, ⟨"Content"⟩, ⟨"Excerpt"⟩, "post-" ++ toString i,
    "2024-01-01T00:00:00", "2024-01-02T00:00:00", 1, 0, "publish"⟩

/-- A client configured with caching on and 3 retries (the defaults). -/
def cfgOn : WordPressConfig := ⟨"http://localhost:3042/wp", 10000, true, 3⟩

/-- A client configured with caching off and 3 retries. -/
def cfgOff : WordPressConfig := ⟨"http://localhost:3042/wp", 10000, false, 3⟩

/-- A client configured with caching on and 2 retries. -/
def cfgTwo : WordPressConfig := ⟨"http://localhost:3042/wp", 10000, true, 2⟩

/-- A backend that answers HTTP 500 on every attempt. -/
def oracle500 : Nat → FetchOutcome PostsBody := fun _ =>
  FetchOutcome.resp ⟨500, "Internal Server Error", none, none, PostsBody.arr [], []⟩

/-- A backend that answers HTTP 404 with a WordPress error body. -/
def oracle404 : Nat → FetchOutcome PostsBody := fun _ =>
  FetchOutcome.resp ⟨404, "Not Found", some "Invalid post ID.",
    some "rest_post_invalid_id", PostsBody.arr [], []⟩

/-- A backend that always answers 200 with a one-post collection. -/
def oracleOnePost : Nat → FetchOutcome PostsBody := fun _ =>
  FetchOutcome.resp ⟨200, "OK", none, none, PostsBody.arr [samplePost 1], []⟩

/-- A backend that always answers 200 with an empty collection. -/
def oracleNoPost : Nat → FetchOutcome PostsBody := fun _ =>
  FetchOutcome.resp ⟨200, "OK", none, none, PostsBody.arr [], []⟩

/-- C2: for every request issued through the client, failures are classified
by HTTP status: a response with status < 500 (and truthy, e.g. 404 or 400,
outside 2xx) is terminal — the typed error is thrown after exactly one network
call with no retry — while a retryable outcome (status ≥ 500 or status 0, or a
network/timeout throw) is retried after waiting `2 ^ attempt` seconds
(`2 ^ attempt * 1000` ms), up to `retries` total attempts; when all attempts
fail the last observed error is thrown, and when no error was ever recorded
(`retries = 0`, so the loop never ran) the generic "Request failed after
retries" error is thrown.  Stated on a cold cache (`[]`). -/
theorem c2_retry_classification :
    (∀ (α : Type) (cfg : WordPressConfig) (ep : String) (ttl now : Nat)
        (oracle : Nat → FetchOutcome α) (r : HttpResponse α),
      1 ≤ cfg.retries → oracle 0 = FetchOutcome.resp r → ¬ respOk r.status →
      r.status ≠ 0 → r.status < 500 →
      (request cfg ep none ttl now [] oracle).result = Except.error (respError r) ∧
      (request cfg ep none ttl now [] oracle).netCalls = 1) ∧
    (∀ (α : Type) (cfg : WordPressConfig) (ep : String) (ttl now : Nat)
        (oracle : Nat → FetchOutcome α),
      1 ≤ cfg.retries → (∀ i, i < cfg.retries → retryableOutcome (oracle i)) →
      (request cfg ep none ttl now [] oracle).result
          = Except.error (outcomeErr (oracle (cfg.retries - 1))) ∧
      (request cfg ep none ttl now [] oracle).netCalls = cfg.retries ∧
      (request cfg ep none ttl now [] oracle).delays
          = (List.range (cfg.retries - 1)).map (fun i => 2 ^ i * 1000)) ∧
    (∀ (α : Type) (cfg : WordPressConfig) (ep : String) (ttl now : Nat)
        (oracle : Nat → FetchOutcome α),
      cfg.retries = 0 →
      (request cfg ep none ttl now [] oracle).result
          = Except.error (WPError.api "Request failed after retries" none none) ∧
      (request cfg ep none ttl now [] oracle).netCalls = 0) := by
  refine ⟨?_, ?_, ?_⟩
  · intro α cfg ep ttl now oracle r h1 hc hok h0 h5
    rw [request_of_miss cfg ep none ttl now [] oracle
      (cacheLookup_nil cfg none (requestKey cfg ep none) now)]
    obtain ⟨k, hk⟩ : ∃ k, cfg.retries = k + 1 := ⟨cfg.retries - 1, by omega⟩
    rw [hk, requestAttempts_terminal cfg (requestKey cfg ep none) none ttl now oracle
      k 0 none [] r hc hok ⟨h0, h5⟩]
    exact ⟨rfl, rfl⟩
  · intro α cfg ep ttl now oracle h1 hall
    rw [request_of_miss cfg ep none ttl now [] oracle
      (cacheLookup_nil cfg none (requestKey cfg ep none) now)]
    rw [requestAttempts_all_retryable cfg (requestKey cfg ep none) none ttl now oracle
      cfg.retries 0 none [] h1 (by intro i hi; simpa using hall i hi)]
    refine ⟨by rw [Nat.zero_add], by rw [Nat.zero_add], ?_⟩
    rw [backoffDelays_zero]
  · intro α cfg ep ttl now oracle h0
    rw [request_of_miss cfg ep none ttl now [] oracle
      (cacheLookup_nil cfg none (requestKey cfg ep none) now)]
    rw [h0, requestAttempts]
    exact ⟨rfl, rfl⟩

/-- Witness for C2 at concrete inputs: a backend answering 404 produces the
typed error after exactly 1 call; a backend answering 500 on every attempt
with `retries = 3` produces 3 calls, backoff delays of 1 s and 2 s, and the
last observed 500 error. -/
theorem c2_retry_witness :
    ((request cfgOn "/posts/7" none 300000 0 [] oracle404).result
        = Except.error (WPError.api "Invalid post ID." (some 404)
            (some "rest_post_invalid_id")) ∧
      (request cfgOn "/posts/7" none 300000 0 [] oracle404).netCalls = 1) ∧
    ((request cfgOn "/x" none 300000 0 [] oracle500).result
        = Except.error (WPError.api "HTTP 500: Internal Server Error" (some 500) none) ∧
      (request cfgOn "/x" none 300000 0 [] oracle500).netCalls = 3 ∧
      (request cfgOn "/x" none 300000 0 [] oracle500).delays = [1000, 2000]) := by
  have h1 := c2_retry_classification.1 PostsBody cfgOn "/posts/7" 300000 0 oracle404
    ⟨404, "Not Found", some "Invalid post ID.", some "rest_post_invalid_id",
      PostsBody.arr [], []⟩
    (by decide) rfl (by decide) (by decide) (by decide)
  have h2 := c2_retry_classification.2.1 PostsBody cfgOn "/x" 300000 0 oracle500
    (by decide) (by intro i _; exact (by decide : retryableOutcome (oracle500 0)))
  refine ⟨⟨h1.1.trans (by rfl), h1.2⟩, ⟨h2.1.trans (by rfl), h2.2.1, h2.2.2.trans (by rfl)⟩⟩

/-- The successful two-post response used for concrete `getPosts` calls. -/
def postsOkOutcome : FetchOutcome (List WordPressPost) :=
  FetchOutcome.resp ⟨200, "OK", none, none, [samplePost 1, samplePost 2],
    [("X-WP-Total", "2"), ("X-WP-TotalPages", "1")]⟩

/-- C1 counterexample: `getPosts` never consults the client cache — it calls
`fetch` directly (lines 240-243), not `this.request`, as its Lean model
reflects by taking no cache at all — so a successful `getPosts` call followed
immediately by an identical call performs two network calls even on a client
constructed with caching enabled, refuting "exactly one network call when the
client is constructed with caching enabled". -/
theorem c1_counterexample :
    cfgOn.cache = true ∧
    (getPosts cfgOn GetPostsParams.empty postsOkOutcome).1.isOk = true ∧
    (getPosts cfgOn GetPostsParams.empty postsOkOutcome).2 +
      (getPosts cfgOn GetPostsParams.empty postsOkOutcome).2 = 2 ∧
    ¬ ((getPosts cfgOn GetPostsParams.empty postsOkOutcome).2 +
      (getPosts cfgOn GetPostsParams.empty postsOkOutcome).2 = 1) := by
  exact ⟨rfl, rfl, rfl, by decide⟩

/-- C1 amended: `getPosts` performs exactly one network call per invocation
and neither consults nor updates the cache, regardless of the cache setting;
the claimed behaviour holds for the operations routed through the private
`request` method (`getPost`, `getPage`): with caching enabled, a successful
call followed by an identical call within the TTL performs one network call in
total (the second is served from the cache); with caching disabled, each call
performs a network call; and the cache is updated only after a 2xx response —
a request that ends in an error leaves the cache unchanged. -/
theorem c1_caching_amended :
    (∀ (cfg : WordPressConfig) (params : GetPostsParams)
        (outcome : FetchOutcome (List WordPressPost)),
      (getPosts cfg params outcome).2 = 1) ∧
    (∀ (α : Type) (cfg : WordPressConfig) (ep : String) (ttl now1 now2 : Nat)
        (oracle oracle2 : Nat → FetchOutcome α) (r : HttpResponse α),
      cfg.cache = true → 1 ≤ cfg.retries →
      oracle 0 = FetchOutcome.resp r → respOk r.status →
      now2 - now1 < ttl →
      (request cfg ep none ttl now1 [] oracle).netCalls = 1 ∧
      (request cfg ep none ttl now2
          (request cfg ep none ttl now1 [] oracle).cache oracle2).netCalls = 0 ∧
      (request cfg ep none ttl now2
          (request cfg ep none ttl now1 [] oracle).cache oracle2).result
        = Except.ok r.body) ∧
    (∀ (α : Type) (cfg : WordPressConfig) (ep : String) (ttl now1 now2 : Nat)
        (oracle oracle2 : Nat → FetchOutcome α) (r : HttpResponse α),
      cfg.cache = false → 1 ≤ cfg.retries →
      oracle 0 = FetchOutcome.resp r → respOk r.status →
      (request cfg ep none ttl now1 [] oracle).netCalls = 1 ∧
      (request cfg ep none ttl now2
          (request cfg ep none ttl now1 [] oracle).cache oracle2).netCalls
        = (request cfg ep none ttl now2 [] oracle2).netCalls) ∧
    (∀ (α : Type) (cfg : WordPressConfig) (ep : String) (meth : Option String)
        (ttl now : Nat) (cache : Cache α) (oracle : Nat → FetchOutcome α) (e : WPError),
      (request cfg ep meth ttl now cache oracle).result = Except.error e →
      (request cfg ep meth ttl now cache oracle).cache = cache) := by
  refine ⟨?_, ?_, ?_, ?_⟩
  · intro cfg params outcome
    cases outcome with
    | netFail msg => rfl
    | resp r =>
      unfold getPosts
      by_cases hok : respOk r.status <;> simp [hok]
  · intro α cfg ep ttl now1 now2 oracle oracle2 r hcache hret hc hok hfresh
    obtain ⟨k, hk⟩ : ∃ k, cfg.retries = k + 1 := ⟨cfg.retries - 1, by omega⟩
    have hb : (cfg.cache && !((none : Option String) == some "POST")) = true := by
      rw [hcache]; rfl
    have h1 : request cfg ep none ttl now1 [] oracle =
        ⟨Except.ok r.body, cacheSet [] (requestKey cfg ep none) ⟨r.body, now1, ttl⟩,
          1, 1, 1, []⟩ := by
      rw [request_of_miss cfg ep none ttl now1 [] oracle
        (cacheLookup_nil cfg none (requestKey cfg ep none) now1)]
      rw [hk, requestAttempts_first_ok cfg (requestKey cfg ep none) none ttl now1 oracle
        k 0 none [] r hc hok, hb]
      rfl
    have hget : cacheGet (request cfg ep none ttl now1 [] oracle).cache
        (requestKey cfg ep none) = some ⟨r.body, now1, ttl⟩ := by
      rw [h1]
      exact cacheGet_cacheSet [] (requestKey cfg ep none) ⟨r.body, now1, ttl⟩
    have h2 : cacheLookup cfg none (request cfg ep none ttl now1 [] oracle).cache
        (requestKey cfg ep none) now2 = some r.body :=
      cacheLookup_fresh cfg none _ (requestKey cfg ep none) now2 ⟨r.body, now1, ttl⟩
        hb hget hfresh
    rw [request_of_hit cfg ep none ttl now2 _ oracle2 r.body h2]
    exact ⟨by rw [h1], rfl, rfl⟩
  · intro α cfg ep ttl now1 now2 oracle oracle2 r hcache hret hc hok
    obtain ⟨k, hk⟩ : ∃ k, cfg.retries = k + 1 := ⟨cfg.retries - 1, by omega⟩
    have hb : (cfg.cache && !((none : Option String) == some "POST")) = false := by
      rw [hcache]; rfl
    have h1 : request cfg ep none ttl now1 [] oracle =
        ⟨Except.ok r.body, [], 1, 1, 1, []⟩ := by
      rw [request_of_miss cfg ep none ttl now1 [] oracle
        (cacheLookup_nil cfg none (requestKey cfg ep none) now1)]
      rw [hk, requestAttempts_first_ok cfg (requestKey cfg ep none) none ttl now1 oracle
        k 0 none [] r hc hok, hb]
      rfl
    constructor
    · rw [h1]
    · rw [h1]
  · intro α cfg ep meth ttl now cache oracle e he
    cases hl : cacheLookup cfg meth cache (requestKey cfg ep meth) now with
    | some d =>
      rw [request_of_hit cfg ep meth ttl now cache oracle d hl] at he
      simp at he
    | none =>
      rw [request_of_miss cfg ep meth ttl now cache oracle hl] at he ⊢
      exact requestAttempts_error_cache cfg (requestKey cfg ep meth) meth ttl now oracle
        cfg.retries 0 none cache e he

/-- Witness for the amended C1 at concrete inputs: with caching on (cfgOn),
a successful request followed by an identical one 1000 ms later performs
1 + 0 network calls; with caching off (cfgOff), 1 + 1; and the 404 request
leaves the cache empty. -/
theorem c1_caching_witness :
    (getPosts cfgOn GetPostsParams.empty postsOkOutcome).2 = 1 ∧
    ((request cfgOn "/e" none 300000 0 [] oracleOnePost).netCalls = 1 ∧
      (request cfgOn "/e" none 300000 1000
        (request cfgOn "/e" none 300000 0 [] oracleOnePost).cache
        oracleOnePost).netCalls = 0 ∧
      (request cfgOn "/e" none 300000 1000
        (request cfgOn "/e" none 300000 0 [] oracleOnePost).cache
        oracleOnePost).result = Except.ok (PostsBody.arr [samplePost 1])) ∧
    ((request cfgOff "/e" none 300000 0 [] oracleOnePost).netCalls = 1 ∧
      (request cfgOff "/e" none 300000 1000
        (request cfgOff "/e" none 300000 0 [] oracleOnePost).cache
        oracleOnePost).netCalls
      = (request cfgOff "/e" none 300000 1000 [] oracleOnePost).netCalls) ∧
    (request cfgOn "/posts/7" none 300000 0 [] oracle404).cache = [] := by
  refine ⟨c1_caching_amended.1 cfgOn GetPostsParams.empty postsOkOutcome, ?_, ?_, ?_⟩
  · exact c1_caching_amended.2.1 PostsBody cfgOn "/e" 300000 0 1000 oracleOnePost
      oracleOnePost ⟨200, "OK", none, none, PostsBody.arr [samplePost 1], []⟩
      rfl (by decide) rfl (by decide) (by decide)
  · exact c1_caching_amended.2.2.1 PostsBody cfgOff "/e" 300000 0 1000 oracleOnePost
      oracleOnePost ⟨200, "OK", none, none, PostsBody.arr [samplePost 1], []⟩
      rfl (by decide) rfl (by decide)
  · exact c1_caching_amended.2.2.2 PostsBody cfgOn "/posts/7" none 300000 0 [] oracle404
      (WPError.api "Invalid post ID." (some 404) (some "rest_post_invalid_id"))
      (by rfl)

/-- The abort error message Node fetch raises when the signal fires. -/
def abortMsg : String := "This operation was aborted"

/-- A backend on which every attempt ends in an abort of the in-flight
request. -/
def oracleAborted : Nat → FetchOutcome PostsBody := fun _ =>
  FetchOutcome.netFail abortMsg

/-- C3 counterexample: `request` creates one `AbortController` and arms one
`setTimeout` before the retry loop (lines 150-151), shared by every attempt —
it does not arm a fresh cancellation per attempt.  With `retries = 2` and both
attempts failing, two attempts are made but only one timer was ever armed, so
"arming a fresh cancellation (abort) of that attempt's in-flight request" for
every retry attempt is refuted: the count of armed timers (1) differs from
the count of attempts (2). -/
theorem c3_counterexample :
    (request cfgTwo "/x" none 300000 0 [] oracleAborted).netCalls = 2 ∧
    (request cfgTwo "/x" none 300000 0 [] oracleAborted).timersArmed = 1 ∧
    (request cfgTwo "/x" none 300000 0 [] oracleAborted).controllersCreated = 1 ∧
    ¬ ((request cfgTwo "/x" none 300000 0 [] oracleAborted).timersArmed
        = (request cfgTwo "/x" none 300000 0 [] oracleAborted).netCalls) := by
  exact ⟨rfl, rfl, rfl, by decide⟩

/-- C3 amended: the timeout is enforced by a single `AbortController` and a
single timer armed once before the retry loop and shared by all attempts (so
it bounds the time from request start, spanning the whole loop), rather than
by a fresh cancellation per attempt; an aborted attempt is caught like any
network failure and still counts toward the retry budget: with every attempt
aborted, the loop performs exactly `retries` attempts and rethrows the abort
error. -/
theorem c3_timer_amended :
    (∀ (α : Type) (cfg : WordPressConfig) (ep : String) (ttl now : Nat)
        (oracle : Nat → FetchOutcome α),
      (request cfg ep none ttl now [] oracle).timersArmed = 1 ∧
      (request cfg ep none ttl now [] oracle).controllersCreated = 1) ∧
    (∀ (α : Type) (cfg : WordPressConfig) (ep : String) (ttl now : Nat) (msg : String),
      1 ≤ cfg.retries →
      (request cfg ep none ttl now []
          (fun _ => (FetchOutcome.netFail msg : FetchOutcome α))).netCalls
        = cfg.retries ∧
      (request cfg ep none ttl now []
          (fun _ => (FetchOutcome.netFail msg : FetchOutcome α))).result
        = Except.error (WPError.raw msg)) := by
  constructor
  · intro α cfg ep ttl now oracle
    rw [request_of_miss cfg ep none ttl now [] oracle
      (cacheLookup_nil cfg none (requestKey cfg ep none) now)]
    exact ⟨rfl, rfl⟩
  · intro α cfg ep ttl now msg hret
    rw [request_of_miss cfg ep none ttl now [] (fun _ => FetchOutcome.netFail msg)
      (cacheLookup_nil cfg none (requestKey cfg ep none) now)]
    rw [requestAttempts_all_retryable cfg (requestKey cfg ep none) none ttl now
      (fun _ => FetchOutcome.netFail msg) cfg.retries 0 none [] hret
      (by intro i _; exact trivial)]
    exact ⟨by rw [Nat.zero_add], rfl⟩

/-- Witness for the amended C3 at concrete inputs: with `retries = 2` and
every attempt aborted, one timer and one controller, two attempts, and the
abort error rethrown. -/
theorem c3_timer_witness :
    ((request cfgTwo "/x" none 300000 0 [] oracleAborted).timersArmed = 1 ∧
      (request cfgTwo "/x" none 300000 0 [] oracleAborted).controllersCreated = 1) ∧
    ((request cfgTwo "/x" none 300000 0 [] oracleAborted).netCalls = 2 ∧
      (request cfgTwo "/x" none 300000 0 [] oracleAborted).result
        = Except.error (WPError.raw abortMsg)) := by
  constructor
  · exact c3_timer_amended.1 PostsBody cfgTwo "/x" 300000 0 oracleAborted
  · have h := c3_timer_amended.2 PostsBody cfgTwo "/x" 300000 0 abortMsg (by decide)
    exact ⟨h.1.trans (by rfl), h.2⟩

/-- C4: for every slug identifier, `getPost` queries the collection endpoint
(`/posts?slug=...`); when the backend returns an empty collection it throws
the typed error with status 404, and when it returns a non-empty collection it
returns the first record of the collection unchanged.  Stated on a cold
cache with a backend whose first answer is a 2xx collection. -/
theorem c4_getPost_slug :
    ∀ (cfg : WordPressConfig) (slug : String) (now : Nat)
      (oracle : Nat → FetchOutcome PostsBody) (hr : HttpResponse PostsBody)
      (ps : List WordPressPost),
    1 ≤ cfg.retries → oracle 0 = FetchOutcome.resp hr → respOk hr.status →
    hr.body = PostsBody.arr ps →
    getPostEndpoint (Sum.inr slug)
        = "/posts?slug=" ++ slug ++ "&_embed=author,wp:featuredmedia,wp:term" ∧
    (ps = [] →
      (getPost cfg (Sum.inr slug) now [] oracle).result
        = Except.error (WPError.api "Post not found" (some 404) none)) ∧
    (∀ p rest, ps = p :: rest →
      (getPost cfg (Sum.inr slug) now [] oracle).result = Except.ok p) := by
  intro cfg slug now oracle hr ps hret hc hok hbody
  have hres : (request cfg (getPostEndpoint (Sum.inr slug)) none defaultCacheTtl
      now [] oracle).result = Except.ok (PostsBody.arr ps) := by
    obtain ⟨k, hk⟩ : ∃ k, cfg.retries = k + 1 := ⟨cfg.retries - 1, by omega⟩
    rw [request_of_miss cfg (getPostEndpoint (Sum.inr slug)) none defaultCacheTtl now []
      oracle (cacheLookup_nil cfg none (requestKey cfg (getPostEndpoint (Sum.inr slug))
        none) now)]
    rw [hk, requestAttempts_first_ok cfg (requestKey cfg (getPostEndpoint (Sum.inr slug))
      none) none defaultCacheTtl now oracle k 0 none [] hr hc hok]
    show Except.ok hr.body = _
    rw [hbody]
  refine ⟨rfl, ?_, ?_⟩
  · intro hnil
    simp only [getPost]
    rw [hres, hnil]
  · intro p rest hcons
    simp only [getPost]
    rw [hres, hcons]

/-- Witness for C4 at concrete inputs: slug "post-1" against a backend whose
collection is empty fails with the typed 404 "Post not found"; against a
backend whose collection holds one record, that record is returned. -/
theorem c4_getPost_slug_witness :
    (getPost cfgOn (Sum.inr "post-1") 0 [] oracleNoPost).result
        = Except.error (WPError.api "Post not found" (some 404) none) ∧
    (getPost cfgOn (Sum.inr "post-1") 0 [] oracleOnePost).result
        = Except.ok (samplePost 1) := by
  constructor
  · exact (c4_getPost_slug cfgOn "post-1" 0 oracleNoPost
      ⟨200, "OK", none, none, PostsBody.arr [], []⟩ []
      (by decide) rfl (by decide) rfl).2.1 rfl
  · exact (c4_getPost_slug cfgOn "post-1" 0 oracleOnePost
      ⟨200, "OK", none, none, PostsBody.arr [samplePost 1], []⟩ [samplePost 1]
      (by decide) rfl (by decide) rfl).2.2 (samplePost 1) [] rfl

/-- A cache holding one entry for the key of endpoint "/e" on `cfgOn`,
captured at time 0 with a TTL of 300000 ms. -/
def staleCache : Cache PostsBody :=
  [(requestKey cfgOn "/e" none, ⟨PostsBody.arr [], 0, 300000⟩)]

/-- C5: a cached entry is reused only while `now - timestamp < ttl`.  Once
the TTL has elapsed, a repeated identical call performs a new network call
even though the cache key is identical, and the stale entry is overwritten by
the next successful fetch (same key, new payload and timestamp); while the
entry is fresh (and caching is on), the call is served from the cache with no
network call. -/
theorem c5_ttl_expiry :
    (∀ (α : Type) (cfg : WordPressConfig) (ep : String) (ttl now : Nat)
        (cache : Cache α) (e : CacheEntry α) (oracle : Nat → FetchOutcome α)
        (hr : HttpResponse α),
      cacheGet cache (requestKey cfg ep none) = some e →
      ¬ (now - e.timestamp < e.ttl) →
      1 ≤ cfg.retries → oracle 0 = FetchOutcome.resp hr → respOk hr.status →
      (request cfg ep none ttl now cache oracle).netCalls = 1 ∧
      (cfg.cache = true →
        cacheGet (request cfg ep none ttl now cache oracle).cache
          (requestKey cfg ep none) = some ⟨hr.body, now, ttl⟩)) ∧
    (∀ (α : Type) (cfg : WordPressConfig) (ep : String) (ttl now : Nat)
        (cache : Cache α) (e : CacheEntry α) (oracle : Nat → FetchOutcome α),
      cfg.cache = true →
      cacheGet cache (requestKey cfg ep none) = some e →
      now - e.timestamp < e.ttl →
      (request cfg ep none ttl now cache oracle).netCalls = 0 ∧
      (request cfg ep none ttl now cache oracle).result = Except.ok e.data) := by
  constructor
  · intro α cfg ep ttl now cache e oracle hr hget hstale hret hc hok
    obtain ⟨k, hk⟩ : ∃ k, cfg.retries = k + 1 := ⟨cfg.retries - 1, by omega⟩
    have hreq : request cfg ep none ttl now cache oracle =
        ⟨Except.ok hr.body,
          (if cfg.cache && !((none : Option String) == some "POST") then
            cacheSet cache (requestKey cfg ep none) ⟨hr.body, now, ttl⟩ else cache),
          1, 1, 1, []⟩ := by
      rw [request_of_miss cfg ep none ttl now cache oracle
        (cacheLookup_stale cfg none cache (requestKey cfg ep none) now e hget hstale)]
      rw [hk, requestAttempts_first_ok cfg (requestKey cfg ep none) none ttl now oracle
        k 0 none cache hr hc hok]
    constructor
    · rw [hreq]
    · intro hcache
      rw [hreq]
      have hb : (cfg.cache && !((none : Option String) == some "POST")) = true := by
        rw [hcache]; rfl
      show cacheGet (if cfg.cache && !((none : Option String) == some "POST") then
        cacheSet cache (requestKey cfg ep none) ⟨hr.body, now, ttl⟩ else cache)
        (requestKey cfg ep none) = _
      rw [hb]
      show cacheGet (cacheSet cache (requestKey cfg ep none) ⟨hr.body, now, ttl⟩)
        (requestKey cfg ep none) = _
      exact cacheGet_cacheSet cache (requestKey cfg ep none) ⟨hr.body, now, ttl⟩
  · intro α cfg ep ttl now cache e oracle hcache hget hfresh
    have hb : (cfg.cache && !((none : Option String) == some "POST")) = true := by
      rw [hcache]; rfl
    rw [request_of_hit cfg ep none ttl now cache oracle e.data
      (cacheLookup_fresh cfg none cache (requestKey cfg ep none) now e hb hget hfresh)]
    exact ⟨rfl, rfl⟩

/-- Witness for C5 at concrete inputs: an entry captured at time 0 with TTL
300000 ms is stale at `now = 300000` — the repeated call performs one network
call and the entry is overwritten with the new payload and timestamp — while
at `now = 299999` it is still fresh and served with no network call. -/
theorem c5_ttl_expiry_witness :
    ((request cfgOn "/e" none 300000 300000 staleCache oracleOnePost).netCalls = 1 ∧
      cacheGet (request cfgOn "/e" none 300000 300000 staleCache oracleOnePost).cache
        (requestKey cfgOn "/e" none)
        = some ⟨PostsBody.arr [samplePost 1], 300000, 300000⟩) ∧
    ((request cfgOn "/e" none 300000 299999 staleCache oracleOnePost).netCalls = 0 ∧
      (request cfgOn "/e" none 300000 299999 staleCache oracleOnePost).result
        = Except.ok (PostsBody.arr [])) := by
  constructor
  · have h := c5_ttl_expiry.1 PostsBody cfgOn "/e" 300000 300000 staleCache
      ⟨PostsBody.arr [], 0, 300000⟩ oracleOnePost
      ⟨200, "OK", none, none, PostsBody.arr [samplePost 1], []⟩
      (by decide) (by decide) (by decide) rfl (by decide)
    exact ⟨h.1, h.2 rfl⟩
  · have h := c5_ttl_expiry.2 PostsBody cfgOn "/e" 300000 299999 staleCache
      ⟨PostsBody.arr [], 0, 300000⟩ oracleOnePost rfl (by decide) (by decide)
    exact ⟨h.1, h.2⟩

/-- C6: `healthCheck` performs at most one network call regardless of the
configured `retries` value — it is a single GET bounded by a fixed 5-second
timeout (`AbortSignal.timeout(5000)`), independent of the general
retry/backoff machinery, and never retries: its call count is 1 for every
outcome and every configuration, and its behaviour does not depend on any
configuration field the retry policy reads. -/
theorem c6_healthCheck_single_call :
    ∀ (cfg : WordPressConfig) (outcome : FetchOutcome Unit),
      (healthCheck cfg outcome).2 = 1 ∧
      healthCheckTimeoutMs = 5000 ∧
      (∀ cfg2 : WordPressConfig, healthCheck cfg2 outcome = healthCheck cfg outcome) := by
  intro cfg outcome
  refine ⟨?_, rfl, ?_⟩
  · cases outcome with
    | netFail msg => rfl
    | resp r => by_cases hok : respOk r.status <;> simp [healthCheck, hok]
  · intro cfg2
    cases outcome with
    | netFail msg => rfl
    | resp r => by_cases hok : respOk r.status <;> simp [healthCheck, hok]

/-- C7 counterexample: `healthCheck` catches every failure and converts it
into a normal (non-error) return value — an `unhealthy` HealthStatus — rather
than throwing a typed error (lines 489-494), refuting "for every client
operation and every failure ... the failure path ends in a thrown typed
error ... no failure is ... converted into a non-error return value".
Concretely, a network failure of the health probe returns the unhealthy
status; the model return type of `healthCheck` has no error component at
all. -/
theorem c7_counterexample :
    healthCheck cfgOn (FetchOutcome.netFail "fetch failed")
      = (⟨HealthState.unhealthy, "WordPress API is not accessible: fetch failed"⟩, 1) :=
  rfl

/-- C7 amended: for every client operation except `healthCheck`, each failure
ends in a thrown error — a non-2xx response is normalised into the typed
error carrying message, status and optional code, while a network/timeout
throw propagates as the raw error (either as the last observed error after
exhausting retries in `request`, or directly in the direct-fetch operations) —
and `healthCheck` alone converts failures into an `unhealthy` HealthStatus
return value instead of throwing.  The conjuncts cover, in order: the
`request` path (and with it `getPost`/`getPage`, whose error propagation is
stated explicitly), then `getPosts`, `getPages`, `getCategories` and `search`
(non-2xx → typed error, fetch throw → raw error), then `healthCheck`. -/
theorem c7_failure_propagation_amended :
    (∀ (α : Type) (cfg : WordPressConfig) (ep : String) (meth : Option String)
        (ttl now : Nat) (cache : Cache α) (oracle : Nat → FetchOutcome α),
      cacheLookup cfg meth cache (requestKey cfg ep meth) now = none →
      (∀ i, failingOutcome (oracle i)) →
      ∃ e, (request cfg ep meth ttl now cache oracle).result = Except.error e) ∧
    (∀ (α : Type) (cfg : WordPressConfig) (ep : String) (ttl now : Nat)
        (oracle : Nat → FetchOutcome α) (hr : HttpResponse α),
      1 ≤ cfg.retries → oracle 0 = FetchOutcome.resp hr → ¬ respOk hr.status →
      hr.status ≠ 0 → hr.status < 500 →
      (request cfg ep none ttl now [] oracle).result
        = Except.error (WPError.api
            (hr.errMessage.getD ("HTTP " ++ toString hr.status ++ ": " ++ hr.statusText))
            (some hr.status) hr.errCode)) ∧
    (∀ (cfg : WordPressConfig) (identifier : Nat ⊕ String) (now : Nat)
        (cache : Cache PostsBody) (oracle : Nat → FetchOutcome PostsBody) (e : WPError),
      (request cfg (getPostEndpoint identifier) none defaultCacheTtl now cache
          oracle).result = Except.error e →
      (getPost cfg identifier now cache oracle).result = Except.error e) ∧
    (∀ (cfg : WordPressConfig) (identifier : Nat ⊕ String) (now : Nat)
        (cache : Cache PagesBody) (oracle : Nat → FetchOutcome PagesBody) (e : WPError),
      (request cfg (getPageEndpoint identifier) none defaultCacheTtl now cache
          oracle).result = Except.error e →
      (getPage cfg identifier now cache oracle).result = Except.error e) ∧
    (∀ (cfg : WordPressConfig) (params : GetPostsParams)
        (hr : HttpResponse (List WordPressPost)),
      ¬ respOk hr.status →
      (getPosts cfg params (FetchOutcome.resp hr)).1
        = Except.error (WPError.api ("Failed to fetch posts: " ++ hr.statusText)
            (some hr.status) none)) ∧
    (∀ (cfg : WordPressConfig) (params : GetPostsParams) (msg : String),
      (getPosts cfg params (FetchOutcome.netFail msg)).1
        = Except.error (WPError.raw msg)) ∧
    (∀ (cfg : WordPressConfig) (params : GetPagesParams)
        (hr : HttpResponse (List WordPressPage)),
      ¬ respOk hr.status →
      (getPages cfg params (FetchOutcome.resp hr)).1
        = Except.error (WPError.api ("Failed to fetch pages: " ++ hr.statusText)
            (some hr.status) none)) ∧
    (∀ (cfg : WordPressConfig) (params : GetPagesParams) (msg : String),
      (getPages cfg params (FetchOutcome.netFail msg)).1
        = Except.error (WPError.raw msg)) ∧
    (∀ (cfg : WordPressConfig) (params : GetCategoriesParams)
        (hr : HttpResponse (List WordPressCategory)),
      ¬ respOk hr.status →
      (getCategories cfg params (FetchOutcome.resp hr)).1
        = Except.error (WPError.api ("Failed to fetch categories: " ++ hr.statusText)
            (some hr.status) none)) ∧
    (∀ (cfg : WordPressConfig) (params : GetCategoriesParams) (msg : String),
      (getCategories cfg params (FetchOutcome.netFail msg)).1
        = Except.error (WPError.raw msg)) ∧
    (∀ (α : Type) (cfg : WordPressConfig) (query : String) (t : Option SearchType)
        (page perPage : Option Int) (hr : HttpResponse (List α)),
      ¬ respOk hr.status →
      (searchContent cfg query t page perPage (FetchOutcome.resp hr)).1
        = Except.error (WPError.api ("Search failed: " ++ hr.statusText)
            (some hr.status) none)) ∧
    (∀ (α : Type) (cfg : WordPressConfig) (query : String) (t : Option SearchType)
        (page perPage : Option Int) (msg : String),
      (searchContent cfg query t page perPage
          ((FetchOutcome.netFail msg : FetchOutcome (List α)))).1
        = Except.error (WPError.raw msg)) ∧
    (∀ (cfg : WordPressConfig) (msg : String),
      (healthCheck cfg (FetchOutcome.netFail msg)).1.status = HealthState.unhealthy) := by
  refine ⟨?_, ?_, ?_, ?_, ?_, ?_, ?_, ?_, ?_, ?_, ?_, ?_, ?_⟩
  · intro α cfg ep meth ttl now cache oracle hmiss hall
    rw [request_of_miss cfg ep meth ttl now cache oracle hmiss]
    exact requestAttempts_all_failing cfg (requestKey cfg ep meth) meth ttl now oracle
      cfg.retries 0 none cache hall
  · intro α cfg ep ttl now oracle hr hret hc hok h0 h5
    rw [request_of_miss cfg ep none ttl now [] oracle
      (cacheLookup_nil cfg none (requestKey cfg ep none) now)]
    obtain ⟨k, hk⟩ : ∃ k, cfg.retries = k + 1 := ⟨cfg.retries - 1, by omega⟩
    rw [hk, requestAttempts_terminal cfg (requestKey cfg ep none) none ttl now oracle
      k 0 none [] hr hc hok ⟨h0, h5⟩]
    rfl
  · intro cfg identifier now cache oracle e he
    simp only [getPost]
    rw [he]
  · intro cfg identifier now cache oracle e he
    simp only [getPage]
    rw [he]
  · intro cfg params hr hok
    unfold getPosts
    simp [hok]
  · intro cfg params msg
    rfl
  · intro cfg params hr hok
    unfold getPages
    simp [hok]
  · intro cfg params msg
    rfl
  · intro cfg params hr hok
    unfold getCategories
    simp [hok]
  · intro cfg params msg
    rfl
  · intro α cfg query t page perPage hr hok
    unfold searchContent
    simp [hok]
  · intro α cfg query t page perPage msg
    rfl
  · intro cfg msg
    rfl

/-- A backend for page lookups on which every fetch throws. -/
def oracleNetFailPages : Nat → FetchOutcome PagesBody := fun _ =>
  FetchOutcome.netFail "fetch failed"

/-- Witness for the amended C7 at concrete inputs: an all-aborted request
throws; a single 404 response throws the typed error with message, status and
code; `getPost` propagates the typed 404 of its inner request and `getPage`
the raw error of an all-failing one; non-ok responses of `getPosts`,
`getPages`, `getCategories` and `search` throw their typed errors and their
fetch failures rethrow the raw error; and `healthCheck` on a fetch failure
returns the unhealthy status. -/
theorem c7_failure_propagation_witness :
    (∃ e, (request cfgTwo "/x" none 300000 0 [] oracleAborted).result
        = Except.error e) ∧
    (request cfgOn "/posts/7" none 300000 0 [] oracle404).result
      = Except.error (WPError.api "Invalid post ID." (some 404)
          (some "rest_post_invalid_id")) ∧
    (getPost cfgOn (Sum.inl 7) 0 [] oracle404).result
      = Except.error (WPError.api "Invalid post ID." (some 404)
          (some "rest_post_invalid_id")) ∧
    (getPage cfgOn (Sum.inr "about") 0 [] oracleNetFailPages).result
      = Except.error (WPError.raw "fetch failed") ∧
    (getPosts cfgOn GetPostsParams.empty
        (FetchOutcome.resp ⟨503, "Service Unavailable", none, none, [], []⟩)).1
      = Except.error (WPError.api "Failed to fetch posts: Service Unavailable"
          (some 503) none) ∧
    (getPosts cfgOn GetPostsParams.empty (FetchOutcome.netFail "fetch failed")).1
      = Except.error (WPError.raw "fetch failed") ∧
    (getPages cfgOn ⟨none, none, none, none, none, none, none⟩
        (FetchOutcome.resp ⟨503, "Service Unavailable", none, none, [], []⟩)).1
      = Except.error (WPError.api "Failed to fetch pages: Service Unavailable"
          (some 503) none) ∧
    (getPages cfgOn ⟨none, none, none, none, none, none, none⟩
        (FetchOutcome.netFail "fetch failed")).1
      = Except.error (WPError.raw "fetch failed") ∧
    (getCategories cfgOn ⟨none, none, none, none, none, none⟩
        (FetchOutcome.resp ⟨503, "Service Unavailable", none, none, [], []⟩)).1
      = Except.error (WPError.api "Failed to fetch categories: Service Unavailable"
          (some 503) none) ∧
    (getCategories cfgOn ⟨none, none, none, none, none, none⟩
        (FetchOutcome.netFail "fetch failed")).1
      = Except.error (WPError.raw "fetch failed") ∧
    (searchContent cfgOn "xyz" (some SearchType.any) none none
        (FetchOutcome.resp ⟨503, "Service Unavailable", none, none,
          ([] : List WordPressPost), []⟩)).1
      = Except.error (WPError.api "Search failed: Service Unavailable"
          (some 503) none) ∧
    (searchContent cfgOn "xyz" (some SearchType.any) none none
        ((FetchOutcome.netFail "fetch failed" : FetchOutcome (List WordPressPost)))).1
      = Except.error (WPError.raw "fetch failed") ∧
    (healthCheck cfgOn (FetchOutcome.netFail "fetch failed")).1.status
      = HealthState.unhealthy := by
  refine ⟨?_, ?_, ?_, ?_, ?_, ?_, ?_, ?_, ?_, ?_, ?_, ?_, ?_⟩
  · exact c7_failure_propagation_amended.1 PostsBody cfgTwo "/x" none 300000 0 []
      oracleAborted (by decide) (by intro i; exact trivial)
  · exact (c7_failure_propagation_amended.2.1 PostsBody cfgOn "/posts/7" 300000 0
      oracle404 ⟨404, "Not Found", some "Invalid post ID.", some "rest_post_invalid_id",
        PostsBody.arr [], []⟩
      (by decide) rfl (by decide) (by decide) (by decide)).trans (by rfl)
  · exact c7_failure_propagation_amended.2.2.1 cfgOn (Sum.inl 7) 0 [] oracle404
      (WPError.api "Invalid post ID." (some 404) (some "rest_post_invalid_id")) (by rfl)
  · exact c7_failure_propagation_amended.2.2.2.1 cfgOn (Sum.inr "about") 0 []
      oracleNetFailPages (WPError.raw "fetch failed") (by rfl)
  · exact (c7_failure_propagation_amended.2.2.2.2.1 cfgOn GetPostsParams.empty
      ⟨503, "Service Unavailable", none, none, [], []⟩ (by decide)).trans (by rfl)
  · exact c7_failure_propagation_amended.2.2.2.2.2.1 cfgOn GetPostsParams.empty
      "fetch failed"
  · exact (c7_failure_propagation_amended.2.2.2.2.2.2.1 cfgOn
      ⟨none, none, none, none, none, none, none⟩
      ⟨503, "Service Unavailable", none, none, [], []⟩ (by decide)).trans (by rfl)
  · exact c7_failure_propagation_amended.2.2.2.2.2.2.2.1 cfgOn
      ⟨none, none, none, none, none, none, none⟩ "fetch failed"
  · exact (c7_failure_propagation_amended.2.2.2.2.2.2.2.2.1 cfgOn
      ⟨none, none, none, none, none, none⟩
      ⟨503, "Service Unavailable", none, none, [], []⟩ (by decide)).trans (by rfl)
  · exact c7_failure_propagation_amended.2.2.2.2.2.2.2.2.2.1 cfgOn
      ⟨none, none, none, none, none, none⟩ "fetch failed"
  · exact (c7_failure_propagation_amended.2.2.2.2.2.2.2.2.2.2.1 WordPressPost cfgOn
      "xyz" (some SearchType.any) none none
      ⟨503, "Service Unavailable", none, none, [], []⟩ (by decide)).trans (by rfl)
  · exact c7_failure_propagation_amended.2.2.2.2.2.2.2.2.2.2.2.1 WordPressPost cfgOn
      "xyz" (some SearchType.any) none none "fetch failed"
  · exact c7_failure_propagation_amended.2.2.2.2.2.2.2.2.2.2.2.2 cfgOn "fetch failed"

theorem numParam_keys (k k' : String) (o : Option Int) :
    (∃ x, (k', x) ∈ numParam k o) ↔ (k' = k ∧ truthyNum o = true) := by
  cases o with
  | none => simp [numParam, truthyNum]
  | some n => by_cases hn : n = 0 <;> simp [numParam, truthyNum, hn]

theorem strParam_keys (k k' : String) (o : Option String) :
    (∃ x, (k', x) ∈ strParam k o) ↔ (k' = k ∧ truthyStr o = true) := by
  cases o with
  | none => simp [strParam, truthyStr]
  | some s => by_cases hs : s = "" <;> simp [strParam, truthyStr, hs]

/-- A filter whose `page` field is present but set to 0. -/
def paramsPageZero : GetPostsParams := ⟨some 0, none, none, none, none, none, none, none⟩

/-- C8 counterexample: the query string is not built from exactly the fields
present in the filter — presence is tested with JS truthiness, so a filter
whose `page` field is present but `0` (`\x7b page: 0 \x7d`) yields a query
holding only the `_embed` parameter: the present field `page` is omitted. -/
theorem c8_counterexample :
    paramsPageZero.page = some 0 ∧
    buildPostsQuery paramsPageZero = [("_embed", postsEmbed)] ∧
    ¬ ("page" ∈ (buildPostsQuery paramsPageZero).map Prod.fst) := by
  exact ⟨rfl, rfl, by decide⟩

/-- C8 amended: for every filter with no fields set, the query built by
`getPosts` contains only the mandatory `_embed` parameter; in general the
query is built deterministically from exactly the fields present with a
truthy value — a number field appears iff set and nonzero, a string field
appears iff set and nonempty, `_embed` always appears, and nothing else
appears. -/
theorem c8_query_amended :
    buildPostsQuery GetPostsParams.empty = [("_embed", postsEmbed)] ∧
    (∀ p : GetPostsParams, ("_embed", postsEmbed) ∈ buildPostsQuery p) ∧
    (∀ (p : GetPostsParams) (k : String),
      k ∈ (buildPostsQuery p).map Prod.fst ↔
        ((k = "page" ∧ truthyNum p.page = true) ∨
         (k = "per_page" ∧ truthyNum p.perPage = true) ∨
         (k = "categories" ∧ truthyStr p.categories = true) ∨
         (k = "tags" ∧ truthyStr p.tags = true) ∨
         (k = "search" ∧ truthyStr p.search = true) ∨
         (k = "orderby" ∧ truthyStr p.orderby = true) ∨
         (k = "order" ∧ truthyStr p.order = true) ∨
         (k = "status" ∧ truthyStr p.status = true) ∨
         k = "_embed")) := by
  refine ⟨rfl, ?_, ?_⟩
  · intro p
    simp [buildPostsQuery]
  · intro p k
    simp [buildPostsQuery, List.map_append, List.mem_append]
    simp [numParam_keys, strParam_keys]

/-- A filter requesting two posts per page. -/
def paramsPerPageTwo : GetPostsParams := ⟨none, some 2, none, none, none, none, none, none⟩

/-- A successful response whose body holds three posts while the headers
advertise total 3 over 2 pages. -/
def threePostsOutcome : FetchOutcome (List WordPressPost) :=
  FetchOutcome.resp ⟨200, "OK", none, none, [samplePost 1, samplePost 2, samplePost 3],
    [("X-WP-Total", "3"), ("X-WP-TotalPages", "2")]⟩

/-- C9 counterexample: the client does not enforce `data.length <= perPage` —
the body array is passed through unchanged (line 261) — so `getPosts` with
`perPage = 2` against a backend that returns three records yields a
`PaginatedResult` whose `data.length = 3` exceeds its `perPage = 2`, refuting
the claimed invariant. -/
theorem c9_counterexample :
    (getPosts cfgOn paramsPerPageTwo threePostsOutcome).1
      = Except.ok ⟨[samplePost 1, samplePost 2, samplePost 3], some 3, some 2, 1, 2⟩ ∧
    ¬ ((([samplePost 1, samplePost 2, samplePost 3].length : Int)) ≤ 2) := by
  exact ⟨rfl, by decide⟩

/-- C9 amended: in every successful result of `getPosts`, `getPages` and
`getCategories`, `total` and `totalPages` are sourced from the `X-WP-Total`
and `X-WP-TotalPages` response headers — not the body (changing the body
leaves them unchanged) — while `data` is the backend body passed through
unchanged, so `data.length <= perPage` holds only when the backend returns at
most `perPage` records; `page` is the requested page when truthy and 1
otherwise, so `page >= 1` holds exactly when every requested page number is
nonnegative. -/
theorem c9_pagination_amended :
    (∀ (cfg : WordPressConfig) (params : GetPostsParams)
        (hr : HttpResponse (List WordPressPost)),
      respOk hr.status →
      ∃ w, (getPosts cfg params (FetchOutcome.resp hr)).1 = Except.ok w ∧
        w.total = jsParseInt ((headerGet hr.headers "X-WP-Total").getD "0") ∧
        w.totalPages = jsParseInt ((headerGet hr.headers "X-WP-TotalPages").getD "0") ∧
        w.data = hr.body ∧
        w.page = jsOr params.page 1 ∧
        w.perPage = jsOr params.perPage 10 ∧
        (∀ body2 : List WordPressPost,
          (getPosts cfg params (FetchOutcome.resp { hr with body := body2 })).1
            = Except.ok { w with data := body2 }) ∧
        ((∀ n, params.page = some n → 0 ≤ n) → 1 ≤ w.page)) ∧
    (∀ (cfg : WordPressConfig) (params : GetPagesParams)
        (hr : HttpResponse (List WordPressPage)),
      respOk hr.status →
      ∃ w, (getPages cfg params (FetchOutcome.resp hr)).1 = Except.ok w ∧
        w.total = jsParseInt ((headerGet hr.headers "X-WP-Total").getD "0") ∧
        w.totalPages = jsParseInt ((headerGet hr.headers "X-WP-TotalPages").getD "0") ∧
        w.data = hr.body) ∧
    (∀ (cfg : WordPressConfig) (params : GetCategoriesParams)
        (hr : HttpResponse (List WordPressCategory)),
      respOk hr.status →
      ∃ w, (getCategories cfg params (FetchOutcome.resp hr)).1 = Except.ok w ∧
        w.total = jsParseInt ((headerGet hr.headers "X-WP-Total").getD "0") ∧
        w.totalPages = jsParseInt ((headerGet hr.headers "X-WP-TotalPages").getD "0") ∧
        w.data = hr.body) := by
  refine ⟨?_, ?_, ?_⟩
  · intro cfg params hr hok
    refine ⟨⟨hr.body, jsParseInt ((headerGet hr.headers "X-WP-Total").getD "0"),
      jsParseInt ((headerGet hr.headers "X-WP-TotalPages").getD "0"),
      jsOr params.page 1, jsOr params.perPage 10⟩,
      ?_, rfl, rfl, rfl, rfl, rfl, ?_, ?_⟩
    · unfold getPosts
      simp [hok]
    · intro body2
      unfold getPosts
      simp [hok]
    · intro hn
      show 1 ≤ jsOr params.page 1
      cases hp : params.page with
      | none => simp [jsOr]
      | some n =>
        have h0 : 0 ≤ n := hn n hp
        by_cases hz : n = 0
        · simp [jsOr, hz]
        · simp only [jsOr, hz, if_false]
          omega
  · intro cfg params hr hok
    refine ⟨⟨hr.body, jsParseInt ((headerGet hr.headers "X-WP-Total").getD "0"),
      jsParseInt ((headerGet hr.headers "X-WP-TotalPages").getD "0"),
      jsOr params.page 1, jsOr params.perPage 10⟩, ?_, rfl, rfl, rfl⟩
    unfold getPages
    simp [hok]
  · intro cfg params hr hok
    refine ⟨⟨hr.body, jsParseInt ((headerGet hr.headers "X-WP-Total").getD "0"),
      jsParseInt ((headerGet hr.headers "X-WP-TotalPages").getD "0"),
      jsOr params.page 1, jsOr params.perPage 10⟩, ?_, rfl, rfl, rfl⟩
    unfold getCategories
    simp [hok]

/-- Witness for the amended C9 at a concrete input: the three-post response
with headers total 3 and totalPages 2 yields a result with those values,
the full three-record body, and page 1. -/
theorem c9_pagination_witness :
    ∃ w, (getPosts cfgOn paramsPerPageTwo threePostsOutcome).1 = Except.ok w ∧
      w.total = jsParseInt ((headerGet
        [("X-WP-Total", "3"), ("X-WP-TotalPages", "2")] "X-WP-Total").getD "0") ∧
      w.totalPages = jsParseInt ((headerGet
        [("X-WP-Total", "3"), ("X-WP-TotalPages", "2")] "X-WP-TotalPages").getD "0") ∧
      w.data = [samplePost 1, samplePost 2, samplePost 3] ∧
      w.page = jsOr none 1 ∧
      w.perPage = jsOr (some 2) 10 ∧
      (∀ body2 : List WordPressPost,
        (getPosts cfgOn paramsPerPageTwo (FetchOutcome.resp
          ⟨200, "OK", none, none, body2,
            [("X-WP-Total", "3"), ("X-WP-TotalPages", "2")]⟩)).1
          = Except.ok { w with data := body2 }) ∧
      ((∀ n, paramsPerPageTwo.page = some n → 0 ≤ n) → 1 ≤ w.page) := by
  exact c9_pagination_amended.1 cfgOn paramsPerPageTwo
    ⟨200, "OK", none, none, [samplePost 1, samplePost 2, samplePost 3],
      [("X-WP-Total", "3"), ("X-WP-TotalPages", "2")]⟩ (by decide)

/-- C10: for every `getPosts`, `getPages`, `getCategories` or `search` call
whose successful response lacks the `X-WP-Total` or `X-WP-TotalPages` header,
the corresponding `total` or `totalPages` field of the returned result is 0
(the header is read with a fallback of "0"), and the call still succeeds. -/
theorem c10_missing_headers :
    (∀ (cfg : WordPressConfig) (params : GetPostsParams)
        (hr : HttpResponse (List WordPressPost)),
      respOk hr.status →
      ∃ w, (getPosts cfg params (FetchOutcome.resp hr)).1 = Except.ok w ∧
        (headerGet hr.headers "X-WP-Total" = none → w.total = some 0) ∧
        (headerGet hr.headers "X-WP-TotalPages" = none → w.totalPages = some 0)) ∧
    (∀ (cfg : WordPressConfig) (params : GetPagesParams)
        (hr : HttpResponse (List WordPressPage)),
      respOk hr.status →
      ∃ w, (getPages cfg params (FetchOutcome.resp hr)).1 = Except.ok w ∧
        (headerGet hr.headers "X-WP-Total" = none → w.total = some 0) ∧
        (headerGet hr.headers "X-WP-TotalPages" = none → w.totalPages = some 0)) ∧
    (∀ (cfg : WordPressConfig) (params : GetCategoriesParams)
        (hr : HttpResponse (List WordPressCategory)),
      respOk hr.status →
      ∃ w, (getCategories cfg params (FetchOutcome.resp hr)).1 = Except.ok w ∧
        (headerGet hr.headers "X-WP-Total" = none → w.total = some 0) ∧
        (headerGet hr.headers "X-WP-TotalPages" = none → w.totalPages = some 0)) ∧
    (∀ (α : Type) (cfg : WordPressConfig) (query : String) (t : Option SearchType)
        (page perPage : Option Int) (hr : HttpResponse (List α)),
      respOk hr.status →
      ∃ w, (searchContent cfg query t page perPage (FetchOutcome.resp hr)).1
          = Except.ok w ∧
        (headerGet hr.headers "X-WP-Total" = none → w.total = some 0) ∧
        (headerGet hr.headers "X-WP-TotalPages" = none → w.totalPages = some 0)) := by
  refine ⟨?_, ?_, ?_, ?_⟩
  · intro cfg params hr hok
    refine ⟨⟨hr.body, jsParseInt ((headerGet hr.headers "X-WP-Total").getD "0"),
      jsParseInt ((headerGet hr.headers "X-WP-TotalPages").getD "0"),
      jsOr params.page 1, jsOr params.perPage 10⟩, ?_, ?_, ?_⟩
    · unfold getPosts
      simp [hok]
    · intro h
      show jsParseInt ((headerGet hr.headers "X-WP-Total").getD "0") = some 0
      rw [h]
      rfl
    · intro h
      show jsParseInt ((headerGet hr.headers "X-WP-TotalPages").getD "0") = some 0
      rw [h]
      rfl
  · intro cfg params hr hok
    refine ⟨⟨hr.body, jsParseInt ((headerGet hr.headers "X-WP-Total").getD "0"),
      jsParseInt ((headerGet hr.headers "X-WP-TotalPages").getD "0"),
      jsOr params.page 1, jsOr params.perPage 10⟩, ?_, ?_, ?_⟩
    · unfold getPages
      simp [hok]
    · intro h
      show jsParseInt ((headerGet hr.headers "X-WP-Total").getD "0") = some 0
      rw [h]
      rfl
    · intro h
      show jsParseInt ((headerGet hr.headers "X-WP-TotalPages").getD "0") = some 0
      rw [h]
      rfl
  · intro cfg params hr hok
    refine ⟨⟨hr.body, jsParseInt ((headerGet hr.headers "X-WP-Total").getD "0"),
      jsParseInt ((headerGet hr.headers "X-WP-TotalPages").getD "0"),
      jsOr params.page 1, jsOr params.perPage 10⟩, ?_, ?_, ?_⟩
    · unfold getCategories
      simp [hok]
    · intro h
      show jsParseInt ((headerGet hr.headers "X-WP-Total").getD "0") = some 0
      rw [h]
      rfl
    · intro h
      show jsParseInt ((headerGet hr.headers "X-WP-TotalPages").getD "0") = some 0
      rw [h]
      rfl
  · intro α cfg query t page perPage hr hok
    refine ⟨⟨hr.body, jsParseInt ((headerGet hr.headers "X-WP-Total").getD "0"),
      jsParseInt ((headerGet hr.headers "X-WP-TotalPages").getD "0"),
      jsOr page 1, jsOr perPage 10⟩, ?_, ?_, ?_⟩
    · unfold searchContent
      simp [hok]
    · intro h
      show jsParseInt ((headerGet hr.headers "X-WP-Total").getD "0") = some 0
      rw [h]
      rfl
    · intro h
      show jsParseInt ((headerGet hr.headers "X-WP-TotalPages").getD "0") = some 0
      rw [h]
      rfl

/-- Witness for C10 at concrete inputs: successful responses with no headers
at all yield total 0 and totalPages 0 for all four operations. -/
theorem c10_missing_headers_witness :
    (∃ w, (getPosts cfgOn GetPostsParams.empty
        (FetchOutcome.resp ⟨200, "OK", none, none, [samplePost 1], []⟩)).1
        = Except.ok w ∧
      (headerGet ([] : List (String × String)) "X-WP-Total" = none → w.total = some 0) ∧
      (headerGet ([] : List (String × String)) "X-WP-TotalPages" = none →
        w.totalPages = some 0)) ∧
    (∃ w, (searchContent cfgOn "xyz" (some SearchType.any) none none
        (FetchOutcome.resp ⟨200, "OK", none, none, ([] : List WordPressPost), []⟩)).1
        = Except.ok w ∧
      (headerGet ([] : List (String × String)) "X-WP-Total" = none → w.total = some 0) ∧
      (headerGet ([] : List (String × String)) "X-WP-TotalPages" = none →
        w.totalPages = some 0)) := by
  constructor
  · exact c10_missing_headers.1 cfgOn GetPostsParams.empty
      ⟨200, "OK", none, none, [samplePost 1], []⟩ (by decide)
  · exact c10_missing_headers.2.2.2 WordPressPost cfgOn "xyz" (some SearchType.any)
      none none ⟨200, "OK", none, none, [], []⟩ (by decide)
